import Mathlib

/-!
Verification of the inclinometer reset tool (`api_client.py`, `reset_worker.py`,
`verify_worker.py`) against its natural-language specification.

The embedding is shallow: each Python function the claims mention is translated
into an executable Lean definition.  Wall-clock times are integers (milliseconds
since the epoch, the unit the program itself uses for `reset_timestamp` and the
telemetry timestamps).  Floating point measurement values are embedded as
rationals; the comparisons the code performs (`abs`, `<=`) agree with the float
semantics on the magnitudes involved.  Network calls are oracles: a worker run
consumes a list of pre-recorded API responses, and the shared cancellation flag
(`threading.Event`) is a monotone function of the number of blocking operations
(API calls and sleeps) performed so far.
-/

namespace DIGIL

/-! ## String helpers mirroring the Python primitives used by the code

`removeAll s pat` is Python's `s.replace(pat, "")`: every non-overlapping
occurrence of `pat` is removed, scanning left to right.  `listContainsB` is
Python's `pat in s` substring test.  Both are structural recursions (on an
explicit fuel equal to the string length) so that the kernel can evaluate them
inside `decide` and `rfl` proofs. -/

def removeAllAux (pat : List Char) : Nat → List Char → List Char
  | 0, l => l
  | _ + 1, [] => []
  | fuel + 1, c :: rest =>
    if pat.isPrefixOf (c :: rest) then removeAllAux pat fuel ((c :: rest).drop pat.length)
    else c :: removeAllAux pat fuel rest

/-- Python `s.replace(pat, "")` for a non-empty `pat`: removes every
(non-overlapping, left-to-right) occurrence of `pat` in `s`. -/
def removeAll (s pat : String) : String :=
  String.mk (removeAllAux pat.toList s.toList.length s.toList)

/-- Python `pat in s` (substring containment) on the underlying character
lists. -/
def listContainsB (pat : List Char) : List Char → Bool
  | [] => pat.isEmpty
  | c :: rest => pat.isPrefixOf (c :: rest) || listContainsB pat rest

def strContainsB (s pat : String) : Bool := listContainsB pat.toList s.toList

/-! ## Data model of the commands log (`api_client.py`)

A log entry is one record of the device's asynchronous command log.  The
`payload` field of a real entry is arbitrary JSON; `_command_matches` only ever
looks at it through `json.loads` (for string payloads) and dictionary `get`.
The embedding therefore carries the payload together with the outcome of that
parse: a string payload is stored with its `json.loads` result (`none` for a
`JSONDecodeError`), and a parsed value is either a dictionary or some
non-dictionary value (on which Python's `.get` raises, caught by the
catch-all `except`). -/

inductive JVal
  | jstr (s : String)
  | jnum (q : ℚ)
  | jbool (b : Bool)
  | jnull
  deriving DecidableEq, Repr, Inhabited

inductive ParsedPayload
  | dict (kv : List (String × JVal))
  | nondict
  deriving DecidableEq, Repr, Inhabited

inductive PyPayload
  /-- a string payload, together with its `json.loads` outcome
  (`none` = `JSONDecodeError`). A missing `payload` key defaults to the string
  `"\x7b\x7d"`, which parses to the empty dictionary. -/
  | pstr (raw : String) (parsed : Option ParsedPayload)
  /-- a payload that is already structured (not a string); used directly. -/
  | pobj (p : ParsedPayload)
  deriving DecidableEq, Repr, Inhabited

structure LogEntry where
  /-- `cmd.get("name")`; `none` when the key is missing. -/
  name : Option String
  /-- the entry time parsed from its ISO string, in ms; `none` when the
  `time` field is missing or unparseable (`fromisoformat` raised). -/
  time : Option Int
  payload : PyPayload
  /-- `cmd.get("response")`: `none` when absent or falsy, otherwise
  `str(response.get("status", ""))`. -/
  response : Option String
  correlationId : Option String
  deriving DecidableEq, Repr, Inhabited

structure LogData where
  pendingCommands : List LogEntry
  sentCommands : List LogEntry
  deriving DecidableEq, Repr, Inhabited

/-- dictionary lookup, Python `d.get(k)` (`none` = Python `None`). -/
def dictGet (kv : List (String × JVal)) (k : String) : Option JVal :=
  (kv.find? (fun p => p.1 = k)).map Prod.snd

/-- normalise a looked-up value to a Python value: JSON `null` and a missing
key are both Python `None`. -/
def asPy (v : Option JVal) : Option JVal :=
  match v with
  | some .jnull => none
  | x => x

/-- `cmd_value == value` as `_command_matches` compares them: case-insensitive
when both are strings, plain equality otherwise (`None` equals nothing but
`null`). -/
def valEq (cmdValue : Option JVal) (v : JVal) : Bool :=
  match asPy cmdValue, v with
  | some (.jstr a), .jstr b => a.toUpper = b.toUpper
  | some x, y => x = y
  | none, .jnull => true
  | none, _ => false

/-- Python `str(value)` for the values that can appear in a payload match set
(the program only ever uses strings here; numbers are approximated by their
rational rendering). -/
def pyStrOf : JVal → String
  | .jstr s => s
  | .jbool true => "True"
  | .jbool false => "False"
  | .jnull => "None"
  | .jnum q => toString q

/-- The payload part of `DIGILApiClient._command_matches` (lines 414-445):
parse path for dictionaries, normalized substring fallback on
`JSONDecodeError`, `False` when the catch-all `except` fires (non-dictionary
payload with a non-empty match set). -/
def payloadCheck (p : PyPayload) (payloadMatch : List (String × JVal)) : Bool :=
  match p with
  | .pstr _ (some (.dict kv)) => payloadMatch.all (fun kvm => valEq (dictGet kv kvm.1) kvm.2)
  | .pobj (.dict kv) => payloadMatch.all (fun kvm => valEq (dictGet kv kvm.1) kvm.2)
  | .pstr raw none =>
    let normalized := ((removeAll (removeAll raw " ") "\n").toLower)
    payloadMatch.all (fun kvm =>
      let searchStr := removeAll ("\x22" ++ kvm.1 ++ "\x22:\x22" ++ pyStrOf kvm.2 ++ "\x22").toLower " "
      strContainsB normalized searchStr)
  | .pstr _ (some .nondict) => payloadMatch.isEmpty
  | .pobj .nondict => payloadMatch.isEmpty

/-- `DIGILApiClient._command_matches` (lines 392-447).  `sentAfter` is in ms;
the code tolerates entries up to 5 seconds older than `sentAfter`. -/
def command_matches (cmd : LogEntry) (commandName : String)
    (payloadMatch : List (String × JVal)) (sentAfter : Int) : Bool :=
  if cmd.name ≠ some commandName then false
  else
    match cmd.time with
    | none => false
    | some t =>
      if t < sentAfter - 5000 then false
      else payloadCheck cmd.payload payloadMatch

inductive CmdLogStatus
  | pending
  | sent_ok
  | sent_error
  | sent_no_response
  | not_found
  deriving DecidableEq, Repr, Inhabited

structure CmdCheckResult where
  found : Bool
  status : CmdLogStatus
  response_status : Option String
  correlation_id : Option String
  error : String
  deriving DecidableEq, Repr, Inhabited

/-- Classification of a matching sent entry by its response (lines 369-383 of
`api_client.py`): a truthy response is `sent_ok` exactly when its status
string with every `".0"` occurrence removed is `"200"` or `"204"`, otherwise
`sent_error`; no response is `sent_no_response`. -/
def classifySentResponse : Option String → CmdLogStatus
  | some statusStr =>
    if removeAll statusStr ".0" = "200" ∨ removeAll statusStr ".0" = "204" then .sent_ok
    else .sent_error
  | none => .sent_no_response

/-- the log query window starts one hour before `sentAfter`
(line 341, `search_start = sent_after - timedelta(hours=1)`). -/
def hourMs : Int := 3600000

def searchStart (sentAfter : Int) : Int := sentAfter - hourMs

/-- `DIGILApiClient.check_command_in_log` (lines 308-390).  The network fetch
`get_commands_log` is an oracle `fetch` from the query start time to the
Python triple `(success, data, error)`.  The pending list is scanned before
the sent list, in the order returned; the first match (via
`command_matches`) decides. -/
def check_command_in_log (fetch : Int → Bool × Option LogData × String)
    (commandName : String) (payloadMatch : List (String × JVal))
    (sentAfter : Int) : CmdCheckResult :=
  let r := fetch (searchStart sentAfter)
  if r.1 = false then
    { found := false, status := .not_found, response_status := none,
      correlation_id := none, error := r.2.2 }
  else
    let data := r.2.1.getD ⟨[], []⟩
    match data.pendingCommands.find? (fun cmd => command_matches cmd commandName payloadMatch sentAfter) with
    | some cmd =>
      { found := true, status := .pending, response_status := none,
        correlation_id := cmd.correlationId, error := "" }
    | none =>
      match data.sentCommands.find? (fun cmd => command_matches cmd commandName payloadMatch sentAfter) with
      | some cmd =>
        { found := true, status := classifySentResponse cmd.response,
          response_status := cmd.response, correlation_id := cmd.correlationId,
          error := "" }
      | none =>
        { found := false, status := .not_found, response_status := none,
          correlation_id := none, error := "" }

/-- Modelled from the spec's words, for comparison with the code only: the
claim reads the normalization as stripping one *trailing* `".0"` from the
response status string. -/
def specStripTrailingDotZero (s : String) : String :=
  let l := s.toList
  if l.reverse.take 2 = ['0', '.'] then String.mk (l.take (l.length - 2)) else s

/-! ## Verification engine (`verify_inclinometer_reset`, `_verify_single_device`)

Telemetry values are rationals, timestamps are ms integers.  A missing field
of the JSON response is `none`; `diags`/`measures` sub-objects absent from the
response behave as empty dictionaries (every field `none`), which is how the
chain of `.get(..., {})` defaults in the code treats them. -/

structure Diag where
  /-- `ALG_Digil2_Alm_Incl.value` -/
  value : Option Bool
  timestamp : Option Int
  deriving DecidableEq, Repr, Inhabited

structure Measure where
  avg : Option ℚ
  timestamp : Option Int
  deriving DecidableEq, Repr, Inhabited

structure DeviceData where
  almIncl : Diag
  incX : Measure
  incY : Measure
  deriving DecidableEq, Repr, Inhabited

/-- the Python triple returned by `get_device_data`. -/
structure FetchDevice where
  success : Bool
  data : Option DeviceData
  error : String
  deriving DecidableEq, Repr, Inhabited

structure VerifyApiResult where
  api_success : Bool
  alarm_incl : Option Bool
  alarm_incl_timestamp : Option Int
  inc_x_avg : Option ℚ
  inc_x_timestamp : Option Int
  inc_y_avg : Option ℚ
  inc_y_timestamp : Option Int
  alarm_ok : Bool
  inc_x_ok : Bool
  inc_y_ok : Bool
  timestamp_valid : Bool
  data_timestamp : Option Int
  timestamp_delta_ms : Option Int
  all_ok : Bool
  error : String
  deriving DecidableEq, Repr, Inhabited

def emptyVerifyApiResult : VerifyApiResult :=
  { api_success := false, alarm_incl := none, alarm_incl_timestamp := none,
    inc_x_avg := none, inc_x_timestamp := none, inc_y_avg := none,
    inc_y_timestamp := none, alarm_ok := false, inc_x_ok := false,
    inc_y_ok := false, timestamp_valid := false, data_timestamp := none,
    timestamp_delta_ms := none, all_ok := false, error := "" }

/-- Python `max` over a possibly empty list (`none` when empty), the
`if valid_timestamps: latest_timestamp = max(valid_timestamps)` step. -/
def pyMax? : List Int → Option Int
  | [] => none
  | t :: rest => some (rest.foldl max t)

/-- `DIGILApiClient.verify_inclinometer_reset` (lines 489-567), with the
`get_device_data` call supplied as its resulting triple.  Each check is
assigned only when its input field is present and remains at its `False`
default otherwise; `timestamp_valid` compares the maximum of the available
data timestamps strictly against `reset_timestamp`. -/
def verify_inclinometer_reset (fetch : FetchDevice) (resetTimestamp : Int)
    (tolerance : ℚ) : VerifyApiResult :=
  if fetch.success = false then { emptyVerifyApiResult with error := fetch.error }
  else
    let d := fetch.data.getD ⟨⟨none, none⟩, ⟨none, none⟩, ⟨none, none⟩⟩
    let r1 := { emptyVerifyApiResult with
      api_success := true,
      alarm_incl := d.almIncl.value, alarm_incl_timestamp := d.almIncl.timestamp,
      inc_x_avg := d.incX.avg, inc_x_timestamp := d.incX.timestamp,
      inc_y_avg := d.incY.avg, inc_y_timestamp := d.incY.timestamp }
    let r2 := { r1 with
      alarm_ok := (match d.almIncl.value with
        | some b => b = false
        | none => false),
      inc_x_ok := (match d.incX.avg with
        | some x => decide (|x| ≤ tolerance)
        | none => false),
      inc_y_ok := (match d.incY.avg with
        | some y => decide (|y| ≤ tolerance)
        | none => false) }
    let validTimestamps := [d.almIncl.timestamp, d.incX.timestamp, d.incY.timestamp].filterMap id
    let r3 := match pyMax? validTimestamps with
      | none => r2
      | some latest =>
        { r2 with
          timestamp_valid := decide (resetTimestamp < latest)
          data_timestamp := some latest
          timestamp_delta_ms := some (latest - resetTimestamp) }
    { r3 with all_ok := r3.alarm_ok && r3.inc_x_ok && r3.inc_y_ok && r3.timestamp_valid }

inductive VerifyStatus
  | pending
  | in_progress
  | verified
  | alarm_active
  | inc_x_out_of_range
  | inc_y_out_of_range
  | timestamp_invalid
  | api_error
  /-- Python `VerifyStatus.PARTIAL` -/
  | incomplete
  deriving DecidableEq, Repr, Inhabited

structure VerifyResult where
  deviceid : String
  tipo : String
  reset_timestamp : Option Int
  data_timestamp : Option Int
  alarm_incl : Option Bool
  alarm_incl_timestamp : Option Int
  inc_x_avg : Option ℚ
  inc_x_timestamp : Option Int
  inc_y_avg : Option ℚ
  inc_y_timestamp : Option Int
  alarm_ok : Bool
  inc_x_ok : Bool
  inc_y_ok : Bool
  timestamp_valid : Bool
  timestamp_delta_ms : Option Int
  status : VerifyStatus
  all_ok : Bool
  error_message : String
  deriving DecidableEq, Repr, Inhabited

def pad3 (k : Nat) : String :=
  if k < 10 then "00" ++ toString k
  else if k < 100 then "0" ++ toString k
  else toString k

/-- rendering of a rational to three decimal places, the embedding of
Python's `f"{x:.3f}"` on a present value. -/
def format3 (q : ℚ) : String :=
  let n : Int := round (q * 1000)
  let sign := if n < 0 then "-" else ""
  sign ++ toString (n.natAbs / 1000) ++ "." ++ pad3 (n.natAbs % 1000)

def pyNoneFormatError : String :=
  "TypeError: unsupported format string passed to NoneType.__format__"

/-- Python `f"{x:.3f}"` on an optional value: raises `TypeError` when the
value is `None`. -/
def pyFormat3 : Option ℚ → Except String String
  | some q => .ok (format3 q)
  | none => .error pyNoneFormatError

/-- The failure-message construction of `_verify_single_device`
(lines 225-235): each failing check appends its issue string, and the
inclination issues format the average with `:.3f`, which raises (`.error`)
when the value is absent. -/
def buildIssues (alarm_ok inc_x_ok inc_y_ok timestamp_valid : Bool)
    (inc_x_avg inc_y_avg : Option ℚ) : Except String (List String) := do
  let issues0 : List String := if alarm_ok = false then ["Allarme attivo"] else []
  let issues1 ← if inc_x_ok = false then do
      let s ← pyFormat3 inc_x_avg
      pure (issues0 ++ ["Inc X=" ++ s])
    else pure issues0
  let issues2 ← if inc_y_ok = false then do
      let s ← pyFormat3 inc_y_avg
      pure (issues1 ++ ["Inc Y=" ++ s])
    else pure issues1
  pure (if timestamp_valid = false then issues2 ++ ["Dati vecchi"] else issues2)

/-- The failure-status assignment of `_verify_single_device` (lines 237-247):
fixed precedence alarm > timestamp > inc X > inc Y > generic partial. -/
def failureStatus (alarm_ok timestamp_valid inc_x_ok inc_y_ok : Bool) : VerifyStatus :=
  if alarm_ok = false then .alarm_active
  else if timestamp_valid = false then .timestamp_invalid
  else if inc_x_ok = false then .inc_x_out_of_range
  else if inc_y_ok = false then .inc_y_out_of_range
  else .incomplete

/-- `VerifyWorker._verify_single_device` (lines 163-258) after the
`verify_inclinometer_reset` call, whose result is passed in as `vd`.  The
purely diagnostic string fields (`data_datetime`, `timestamp_delta_readable`)
and the statistics counters are not modelled. -/
def verify_single_device (deviceid : String) (resetTimestamp : Int)
    (tipo : String) (vd : VerifyApiResult) : Except String VerifyResult :=
  let r0 : VerifyResult :=
    { deviceid := deviceid, tipo := tipo, reset_timestamp := some resetTimestamp,
      data_timestamp := vd.alarm_incl_timestamp,
      alarm_incl := vd.alarm_incl, alarm_incl_timestamp := vd.alarm_incl_timestamp,
      inc_x_avg := vd.inc_x_avg, inc_x_timestamp := vd.inc_x_timestamp,
      inc_y_avg := vd.inc_y_avg, inc_y_timestamp := vd.inc_y_timestamp,
      alarm_ok := vd.alarm_ok, inc_x_ok := vd.inc_x_ok, inc_y_ok := vd.inc_y_ok,
      timestamp_valid := vd.timestamp_valid,
      timestamp_delta_ms := vd.timestamp_delta_ms,
      status := .in_progress, all_ok := vd.all_ok, error_message := "" }
  if vd.error ≠ "" then
    .ok { r0 with error_message := vd.error, status := .api_error }
  else if r0.all_ok then
    .ok { r0 with status := .verified }
  else
    match buildIssues vd.alarm_ok vd.inc_x_ok vd.inc_y_ok vd.timestamp_valid
        vd.inc_x_avg vd.inc_y_avg with
    | .error e => .error e
    | .ok issues =>
      .ok { r0 with
            error_message := String.intercalate "; " issues
            status := failureStatus vd.alarm_ok vd.timestamp_valid vd.inc_x_ok vd.inc_y_ok }

/-! ## Reset worker (`reset_worker.py`)

`ResetWorker._process_single_device` is a loop nest of blocking network calls
and sleeps.  It is embedded as a small-step machine: a program counter marks
each blocking operation or flag check of the Python code, a configuration
carries the mutable `ResetResult` record, the unconsumed API responses, the
count `t` of blocking operations performed so far, and a trace of the abstract
events the claims talk about.  The shared `threading.Event` stop flag is
monotone: it reads as set from time `stopAt` onward (`none` = never tripped).
API calls consume the next pre-recorded response from the oracle list; a
response of the wrong shape (or an exhausted list) makes the run stuck
(`none`), so theorems quantify over runs that return a result.  The purely
diagnostic pieces of the Python record (`operation_log`, `reset_datetime`,
progress callbacks, the statistics counters) are not modelled. -/

inductive MaintenanceState
  | on
  | off
  | unknown
  deriving DecidableEq, Repr, Inhabited

inductive ResetStatus
  | pending
  | in_progress
  | maint_on
  | reset_cmd
  | maint_off
  | ok
  | failed
  | error
  | interrupted
  deriving DecidableEq, Repr, Inhabited

inductive ResetPhase
  | idle
  | maint_on_sending
  | maint_on_checking_log
  | maint_on_verifying
  | reset_sending
  | reset_checking_log
  | maint_off_sending
  | maint_off_checking_log
  | maint_off_verifying
  | completed
  | phase_error
  deriving DecidableEq, Repr, Inhabited

structure ResetResult where
  deviceid : String
  tipo : String
  current_phase : ResetPhase
  manutenzione_on : String
  reset_inclinometro : String
  manutenzione_off : String
  maintenance_state : MaintenanceState
  reset_timestamp : Option Int
  maint_on_attempts : Nat
  reset_attempts : Nat
  maint_off_attempts : Nat
  error_message : String
  status : ResetStatus
  has_maintenance_on_pending : Bool
  deriving DecidableEq, Repr, Inhabited

/-- the dataclass defaults of `ResetResult` (lines 63-101). -/
def newResult (deviceid : String) : ResetResult :=
  { deviceid := deviceid, tipo := "unknown", current_phase := .idle,
    manutenzione_on := "NON ESEGUITO", reset_inclinometro := "NON ESEGUITO",
    manutenzione_off := "NON ESEGUITO", maintenance_state := .unknown,
    reset_timestamp := none, maint_on_attempts := 0, reset_attempts := 0,
    maint_off_attempts := 0, error_message := "", status := .pending,
    has_maintenance_on_pending := false }

/-- `detect_device_type` (lines 126-147). -/
def detect_device_type (deviceid : String) : String :=
  let l := deviceid.toList
  let mid := (l.drop 3).take 3
  if 6 ≤ l.length ∧ listContainsB ['1', '5'] mid then "master"
  else if 6 ≤ l.length ∧ listContainsB ['1', '6'] mid then "slave"
  else if listContainsB ['1', '5'] l ∧ ¬ listContainsB ['1', '6'] l then "master"
  else if listContainsB ['1', '6'] l then "slave"
  else "slave"

/-- abstract events of one worker run, in the order they happen. -/
inductive WEvent
  /-- a maintenance-ON send was accepted (line 333), or the pre-check found
  `maintenanceMode == "ON"` (line 304): the moments `has_maintenance_on_pending`
  is set. -/
  | pendingOn
  /-- the reset send was accepted at client time `ts` ms (lines 422-423). -/
  | resetAccepted (ts : Int)
  /-- the reset command's log lookup returned `sent_ok` (line 456). -/
  | resetConfirmed
  /-- maintenance-OFF confirmed: log `sent_ok` and configuration read
  `maintenanceMode == "OFF"` (lines 537-540), the moment the flag is cleared. -/
  | offConfirmed
  deriving DecidableEq, Repr, Inhabited

/-- one pre-recorded API response, consumed by the matching client call. -/
inductive ApiResp
  /-- result of `get_maintenance_status`: `(success, status, error)`. -/
  | maintStatus (success : Bool) (status : Option String) (error : String)
  /-- result of `send_command`: `(success, error, sent_time in ms)`. -/
  | send (success : Bool) (error : String) (sentTime : Int)
  /-- result of `check_command_in_log`, as the worker reads it:
  the `error`, `status` and `response_status` fields. -/
  | checkLog (error : String) (status : CmdLogStatus) (responseStatus : Option String)
  deriving DecidableEq, Repr, Inhabited

structure WEnv where
  responses : List ApiResp
  /-- the stop flag reads as set at every blocking-operation count `≥ stopAt`. -/
  stopAt : Option Nat
  deriving DecidableEq, Repr, Inhabited

def isStopped (env : WEnv) (t : Nat) : Bool :=
  match env.stopAt with
  | none => false
  | some k => decide (k ≤ t)

/-- program counters: one per blocking operation / flag check of
`_process_single_device`.  The `Int` argument is the local `sent_time` of the
phase's last accepted send. -/
inductive Pc
  | preCheck
  | p1Head
  | p1RetrySleep
  | p1WaitSleep (sentTime : Int)
  | p1Check (sentTime : Int)
  | p1PendSleep (sentTime : Int)
  | p1Config (sentTime : Int)
  | afterP1
  | p2Head
  | p2RetrySleep
  | p2WaitSleep (sentTime : Int)
  | p2Check (sentTime : Int)
  | p2PendSleep (sentTime : Int)
  | afterP2
  | p3Head
  | p3RetrySleep
  | p3WaitSleep (sentTime : Int)
  | p3Check (sentTime : Int)
  | p3PendSleep (sentTime : Int)
  | p3Config (sentTime : Int)
  | afterP3
  deriving DecidableEq, Repr, Inhabited

structure WConfig where
  pc : Pc
  st : ResetResult
  rs : List ApiResp
  t : Nat
  tr : List WEvent
  deriving DecidableEq, Repr, Inhabited

/-- the terminal record of the three `if self._stop_flag.is_set()` exits
(lines 396-401, 470-475, 560-565). -/
def interruptedResult (st : ResetResult) : ResetResult :=
  { st with status := .interrupted, error_message := "Interrotto dall\x27utente" }

/-- one step of `_process_single_device`.  `none` when the next oracle
response does not match the call being made (ill-formed environment). -/
def step (env : WEnv) (c : WConfig) : Option (WConfig ⊕ ResetResult) :=
  match c.pc with
  | .preCheck =>
    -- lines 294-310: read configuration once before phase 1
    match c.rs with
    | .maintStatus success maintStatus _err :: rest =>
      let st1 := { c.st with current_phase := .maint_on_verifying }
      if success ∧ maintStatus = some "ON" then
        some (.inl
          { pc := .afterP1
            st := { st1 with
                      maintenance_state := .on
                      manutenzione_on := "GIA\x27 ON"
                      has_maintenance_on_pending := true }
            rs := rest
            t := c.t + 1
            tr := c.tr ++ [.pendingOn] })
      else
        let st2 :=
          if success then
            { st1 with maintenance_state :=
                if maintStatus = some "OFF" then MaintenanceState.off else .unknown }
          else st1
        some (.inl
          { pc := .p1Head
            st := { st2 with current_phase := .maint_on_sending, status := .maint_on }
            rs := rest
            t := c.t + 1
            tr := c.tr })
    | _ => none
  | .p1Head =>
    -- line 318: `while not stop and not maint_on_done`, then the send
    if isStopped env c.t then some (.inl { c with pc := .afterP1 })
    else
      match c.rs with
      | .send success _err sentTime :: rest =>
        let st1 := { c.st with maint_on_attempts := c.st.maint_on_attempts + 1 }
        if success then
          some (.inl
            { pc := .p1WaitSleep sentTime
              st := { st1 with
                        has_maintenance_on_pending := true
                        current_phase := .maint_on_checking_log }
              rs := rest
              t := c.t + 1
              tr := c.tr ++ [.pendingOn] })
        else
          some (.inl { pc := .p1RetrySleep, st := st1, rs := rest, t := c.t + 1, tr := c.tr })
      | _ => none
  | .p1RetrySleep =>
    -- line 329: `time.sleep(5)` then retry the send
    some (.inl { c with pc := .p1Head, t := c.t + 1 })
  | .p1WaitSleep s =>
    -- lines 337-340: sleep the poll interval, then check the stop flag
    if isStopped env (c.t + 1) then some (.inl { c with pc := .afterP1, t := c.t + 1 })
    else some (.inl { c with pc := .p1Check s, t := c.t + 1 })
  | .p1Check s =>
    -- lines 344-394: inner log-checking loop head and one lookup
    if isStopped env c.t then some (.inl { c with pc := .afterP1 })
    else
      match c.rs with
      | .checkLog err status _resp :: rest =>
        if err ≠ "" then
          some (.inl { c with pc := .p1Head, rs := rest, t := c.t + 1 })
        else
          match status with
          | .pending => some (.inl { c with pc := .p1PendSleep s, rs := rest, t := c.t + 1 })
          | .sent_ok =>
            some (.inl
              { pc := .p1Config s
                st := { c.st with current_phase := .maint_on_verifying }
                rs := rest
                t := c.t + 1
                tr := c.tr })
          | _ => some (.inl { c with pc := .p1Head, rs := rest, t := c.t + 1 })
      | _ => none
  | .p1PendSleep s =>
    -- line 360: command still pending, sleep and check again
    some (.inl { c with pc := .p1Check s, t := c.t + 1 })
  | .p1Config _s =>
    -- lines 370-386: read configuration after `sent_ok`
    match c.rs with
    | .maintStatus success maintStatus _err :: rest =>
      if success ∧ maintStatus = some "ON" then
        some (.inl
          { pc := .afterP1
            st := { c.st with maintenance_state := .on, manutenzione_on := "OK" }
            rs := rest
            t := c.t + 1
            tr := c.tr })
      else
        let st1 :=
          if success then
            { c.st with maintenance_state :=
                if maintStatus = some "OFF" then MaintenanceState.off else .unknown }
          else c.st
        some (.inl { pc := .p1Head, st := st1, rs := rest, t := c.t + 1, tr := c.tr })
    | _ => none
  | .afterP1 =>
    -- lines 396-405: interruption check, then enter the reset phase
    if isStopped env c.t then some (.inr (interruptedResult c.st))
    else
      some (.inl
        { c with
            pc := .p2Head
            st := { c.st with current_phase := .reset_sending, status := .reset_cmd } })
  | .p2Head =>
    -- lines 408-426: reset-send loop head and the send
    if isStopped env c.t then some (.inl { c with pc := .afterP2 })
    else
      match c.rs with
      | .send success _err sentTime :: rest =>
        let st1 := { c.st with reset_attempts := c.st.reset_attempts + 1 }
        if success then
          some (.inl
            { pc := .p2WaitSleep sentTime
              st := { st1 with
                        reset_timestamp := some sentTime
                        current_phase := .reset_checking_log }
              rs := rest
              t := c.t + 1
              tr := c.tr ++ [.resetAccepted sentTime] })
        else
          some (.inl { pc := .p2RetrySleep, st := st1, rs := rest, t := c.t + 1, tr := c.tr })
      | _ => none
  | .p2RetrySleep =>
    some (.inl { c with pc := .p2Head, t := c.t + 1 })
  | .p2WaitSleep s =>
    -- lines 430-433
    if isStopped env (c.t + 1) then some (.inl { c with pc := .afterP2, t := c.t + 1 })
    else some (.inl { c with pc := .p2Check s, t := c.t + 1 })
  | .p2Check s =>
    -- lines 437-468: reset log-checking loop
    if isStopped env c.t then some (.inl { c with pc := .afterP2 })
    else
      match c.rs with
      | .checkLog err status _resp :: rest =>
        if err ≠ "" then
          some (.inl { c with pc := .p2Head, rs := rest, t := c.t + 1 })
        else
          match status with
          | .pending => some (.inl { c with pc := .p2PendSleep s, rs := rest, t := c.t + 1 })
          | .sent_ok =>
            some (.inl
              { pc := .afterP2
                st := { c.st with reset_inclinometro := "OK" }
                rs := rest
                t := c.t + 1
                tr := c.tr ++ [.resetConfirmed] })
          | _ => some (.inl { c with pc := .p2Head, rs := rest, t := c.t + 1 })
      | _ => none
  | .p2PendSleep s =>
    some (.inl { c with pc := .p2Check s, t := c.t + 1 })
  | .afterP2 =>
    -- lines 470-479: interruption check, then enter maintenance OFF
    if isStopped env c.t then some (.inr (interruptedResult c.st))
    else
      some (.inl
        { c with
            pc := .p3Head
            st := { c.st with current_phase := .maint_off_sending, status := .maint_off } })
  | .p3Head =>
    -- lines 482-496
    if isStopped env c.t then some (.inl { c with pc := .afterP3 })
    else
      match c.rs with
      | .send success _err sentTime :: rest =>
        let st1 := { c.st with maint_off_attempts := c.st.maint_off_attempts + 1 }
        if success then
          some (.inl
            { pc := .p3WaitSleep sentTime
              st := { st1 with current_phase := .maint_off_checking_log }
              rs := rest
              t := c.t + 1
              tr := c.tr })
        else
          some (.inl { pc := .p3RetrySleep, st := st1, rs := rest, t := c.t + 1, tr := c.tr })
      | _ => none
  | .p3RetrySleep =>
    some (.inl { c with pc := .p3Head, t := c.t + 1 })
  | .p3WaitSleep s =>
    -- lines 500-503
    if isStopped env (c.t + 1) then some (.inl { c with pc := .afterP3, t := c.t + 1 })
    else some (.inl { c with pc := .p3Check s, t := c.t + 1 })
  | .p3Check s =>
    -- lines 507-558
    if isStopped env c.t then some (.inl { c with pc := .afterP3 })
    else
      match c.rs with
      | .checkLog err status _resp :: rest =>
        if err ≠ "" then
          some (.inl { c with pc := .p3Head, rs := rest, t := c.t + 1 })
        else
          match status with
          | .pending => some (.inl { c with pc := .p3PendSleep s, rs := rest, t := c.t + 1 })
          | .sent_ok =>
            some (.inl
              { pc := .p3Config s
                st := { c.st with current_phase := .maint_off_verifying }
                rs := rest
                t := c.t + 1
                tr := c.tr })
          | _ => some (.inl { c with pc := .p3Head, rs := rest, t := c.t + 1 })
      | _ => none
  | .p3PendSleep s =>
    some (.inl { c with pc := .p3Check s, t := c.t + 1 })
  | .p3Config _s =>
    -- lines 533-548: configuration read after maintenance-OFF `sent_ok`
    match c.rs with
    | .maintStatus success maintStatus _err :: rest =>
      if success ∧ maintStatus = some "OFF" then
        some (.inl
          { pc := .afterP3
            st := { c.st with
                      maintenance_state := .off
                      manutenzione_off := "OK"
                      has_maintenance_on_pending := false }
            rs := rest
            t := c.t + 1
            tr := c.tr ++ [.offConfirmed] })
      else
        let st1 :=
          if success then
            { c.st with maintenance_state :=
                if maintStatus = some "ON" then MaintenanceState.on else .unknown }
          else c.st
        some (.inl { pc := .p3Head, st := st1, rs := rest, t := c.t + 1, tr := c.tr })
    | _ => none
  | .afterP3 =>
    -- lines 560-570: interruption check, then completion
    if isStopped env c.t then some (.inr (interruptedResult c.st))
    else
      some (.inr { c.st with current_phase := .completed, status := .ok })

/-- iterate `step` with fuel; returns the terminal record together with the
configuration at which the run returned. -/
def stepRun (env : WEnv) : Nat → WConfig → Option (ResetResult × WConfig)
  | 0, _ => none
  | fuel + 1, c =>
    match step env c with
    | none => none
    | some (.inr r) => some (r, c)
    | some (.inl c') => stepRun env fuel c'

/-- the starting configuration of one worker: a fresh record (lines 276-278
set the device type and the `IN_PROGRESS` status), the full oracle, zero
blocking operations performed, empty history. -/
def initConfig (env : WEnv) (deviceid : String) : WConfig :=
  { pc := .preCheck
    st := { newResult deviceid with
              tipo := detect_device_type deviceid
              status := .in_progress }
    rs := env.responses
    t := 0
    tr := [] }

/-- `ResetWorker._process_single_device` (lines 271-576). -/
def process_single_device (env : WEnv) (fuel : Nat) (deviceid : String) :
    Option (ResetResult × WConfig) :=
  stepRun env fuel (initConfig env deviceid)

/-! ## Fleet run (`ResetWorker.run`, lines 578-654)

The results dictionary is an insertion-ordered association list with overwrite
(Python `dict`).  The thread pool is modelled sequentially: each device's
record is owned by its own worker, so for the per-record claims the
interleaving is irrelevant.  `apiCalls` counts the device-level API responses
consumed over the whole run. -/

structure AuthResult where
  success : Bool
  msg : String
  deriving DecidableEq, Repr, Inhabited

def insertResult : List (String × ResetResult) → String → ResetResult →
    List (String × ResetResult)
  | [], k, v => [(k, v)]
  | (k', v') :: rest, k, v =>
    if k' = k then (k, v) :: rest else (k', v') :: insertResult rest k v

structure FleetOutcome where
  results : List ResetResult
  /-- number of per-device network responses consumed during the run. -/
  apiCalls : Nat
  deriving DecidableEq, Repr, Inhabited

/-- `ResetWorker.run`: validate authentication once; on failure mark every
device `ERROR` with the auth message and issue no device call (lines
596-612); otherwise process every device. -/
def runFleet (auth : AuthResult) (devEnv : String → WEnv) (fuel : Nat)
    (deviceIds : List String) : Option FleetOutcome :=
  if auth.success = false then
    let m := deviceIds.foldl
      (fun acc did =>
        insertResult acc did
          { newResult did with
              tipo := detect_device_type did
              status := .error
              error_message := "Auth error: " ++ auth.msg })
      []
    some { results := m.map Prod.snd, apiCalls := 0 }
  else
    let runOne := fun (acc : Option (List (String × ResetResult) × Nat)) did =>
      match acc with
      | none => none
      | some (m, calls) =>
        match process_single_device (devEnv did) fuel did with
        | none => none
        | some (r, c) =>
          some (insertResult m did r, calls + ((devEnv did).responses.length - c.rs.length))
    match deviceIds.foldl runOne (some ([], 0)) with
    | none => none
    | some (m, calls) => some { results := m.map Prod.snd, apiCalls := calls }

/-! ## Claims about the log matcher (C7, C3, C6) -/

/-- an empty payload match set is satisfied by every payload shape: both the
parsed path and the raw-string fallback quantify over the (empty) match set,
and the exception path is only reached from inside the loop. -/
theorem payloadCheck_nil (p : PyPayload) : payloadCheck p [] = true := by
  rcases p with ⟨raw, parsed⟩ | pp
  · rcases parsed with _ | pp
    · simp [payloadCheck]
    · cases pp <;> simp [payloadCheck]
  · cases pp <;> simp [payloadCheck]

/-- Claim C7: with an empty payload match set, `_command_matches` accepts any
log entry whose name equals the searched command name and whose parseable
time is at least `sentAfter - 5s`, regardless of the payload — including a
malformed (non-JSON) or absent payload. -/
theorem command_matches_empty_match (cmd : LogEntry) (name : String)
    (t sentAfter : Int) (hname : cmd.name = some name)
    (htime : cmd.time = some t) (hmargin : sentAfter - 5000 ≤ t) :
    command_matches cmd name [] sentAfter = true := by
  unfold command_matches
  rw [hname, htime]
  simp [not_lt.mpr hmargin, payloadCheck_nil]

/-- Witness for C7 at a concrete entry whose payload is a malformed string
(`json.loads` fails). -/
theorem command_matches_empty_match_witness :
    (LogEntry.name ⟨some "maintenance", some 1000, .pstr "garbage" none, some "500", none⟩
        = some "maintenance") ∧
    (LogEntry.time ⟨some "maintenance", some 1000, .pstr "garbage" none, some "500", none⟩
        = some 1000) ∧
    ((900 : Int) - 5000 ≤ 1000) ∧
    command_matches ⟨some "maintenance", some 1000, .pstr "garbage" none, some "500", none⟩
      "maintenance" [] 900 = true :=
  ⟨rfl, rfl, by decide,
    command_matches_empty_match
      ⟨some "maintenance", some 1000, .pstr "garbage" none, some "500", none⟩
      "maintenance" 1000 900 rfl rfl (by decide)⟩

/-- Claim C3 counterexample: the code removes every occurrence of ".0" from
the response status (`str.replace`), not a trailing one: the status string
"20.00" classifies as `sent_ok`, although stripping a trailing ".0" leaves
"20.00", which is neither "200" nor "204" and is outside the 200/204 family. -/
theorem classifySent_not_trailing_strip :
    classifySentResponse (some "20.00") = .sent_ok ∧
    specStripTrailingDotZero "20.00" = "20.00" ∧
    specStripTrailingDotZero "20.00" ≠ "200" ∧
    specStripTrailingDotZero "20.00" ≠ "204" := by
  refine ⟨by decide, by decide, by decide, by decide⟩

/-- Claim C3 (amended): a matching sent entry carrying a response classifies
as `sent_ok` exactly when its response status string with **every occurrence**
of ".0" removed is "200" or "204", as `sent_error` otherwise, and as
`sent_no_response` when it has no response; in particular "200.0" and "200"
give `sent_ok` and "500" gives `sent_error`. -/
theorem check_command_in_log_sent_classification
    (fetch : Int → Bool × Option LogData × String) (name : String)
    (pm : List (String × JVal)) (sentAfter : Int) (data : LogData) (e : LogEntry)
    (hf : fetch (searchStart sentAfter) = (true, some data, ""))
    (hp : data.pendingCommands.find?
        (fun cmd => command_matches cmd name pm sentAfter) = none)
    (hs : data.sentCommands.find?
        (fun cmd => command_matches cmd name pm sentAfter) = some e) :
    ((check_command_in_log fetch name pm sentAfter).status = .sent_ok ↔
      ∃ s, e.response = some s ∧
        (removeAll s ".0" = "200" ∨ removeAll s ".0" = "204")) ∧
    (e.response = none →
      (check_command_in_log fetch name pm sentAfter).status = .sent_no_response) ∧
    (∀ s, e.response = some s → removeAll s ".0" ≠ "200" → removeAll s ".0" ≠ "204" →
      (check_command_in_log fetch name pm sentAfter).status = .sent_error) ∧
    classifySentResponse (some "200.0") = .sent_ok ∧
    classifySentResponse (some "200") = .sent_ok ∧
    classifySentResponse (some "500") = .sent_error := by
  have hres : check_command_in_log fetch name pm sentAfter =
      { found := true, status := classifySentResponse e.response,
        response_status := e.response, correlation_id := e.correlationId,
        error := "" } := by
    unfold check_command_in_log
    rw [hf]
    simp [hp, hs]
  refine ⟨?_, ?_, ?_, by decide, by decide, by decide⟩
  · rw [hres]
    rcases hr : e.response with _ | s
    · simp [classifySentResponse]
    · simp only [classifySentResponse]
      constructor
      · intro h
        refine ⟨s, rfl, ?_⟩
        by_contra hc
        push_neg at hc
        simp [hc.1, hc.2] at h
      · rintro ⟨s', hs', hor⟩
        cases hs'
        simp [hor]
  · intro hr
    rw [hres, hr]
    simp [classifySentResponse]
  · intro s hr h200 h204
    rw [hres, hr]
    simp [classifySentResponse, h200, h204]

/-- Witness for C3's amended theorem: a single matching sent entry with
response status "200.0". -/
theorem check_command_in_log_sent_classification_witness :
    ((fun _ => (true, some (⟨[], [⟨some "maintenance", some 1000, .pstr "garbage" none,
          some "200.0", some "c1"⟩]⟩ : LogData), "")) (searchStart 900)
      = (true, some (⟨[], [⟨some "maintenance", some 1000, .pstr "garbage" none,
          some "200.0", some "c1"⟩]⟩ : LogData), "")) ∧
    (check_command_in_log
        (fun _ => (true, some (⟨[], [⟨some "maintenance", some 1000, .pstr "garbage" none,
          some "200.0", some "c1"⟩]⟩ : LogData), ""))
        "maintenance" [] 900).status = .sent_ok := by
  refine ⟨rfl, ?_⟩
  have h := check_command_in_log_sent_classification
    (fun _ => (true, some (⟨[], [⟨some "maintenance", some 1000, .pstr "garbage" none,
        some "200.0", some "c1"⟩]⟩ : LogData), ""))
    "maintenance" [] 900
    ⟨[], [⟨some "maintenance", some 1000, .pstr "garbage" none, some "200.0", some "c1"⟩]⟩
    ⟨some "maintenance", some 1000, .pstr "garbage" none, some "200.0", some "c1"⟩
    rfl rfl (by decide)
  exact h.1.mpr ⟨"200.0", rfl, by decide⟩

/-- Claim C6: `check_command_in_log` reads the log only through the window
starting one hour before `sentAfter`; the pending list is scanned before the
sent list, the first structurally matching entry decides (a pending match
yields `pending` whatever the sent list holds), and no match in either list
yields `not_found` with `found = false`. -/
theorem check_command_in_log_scan_order
    (fetch : Int → Bool × Option LogData × String) (name : String)
    (pm : List (String × JVal)) (sentAfter : Int) :
    (∀ g : Int → Bool × Option LogData × String,
      fetch (sentAfter - 3600000) = g (sentAfter - 3600000) →
      check_command_in_log fetch name pm sentAfter =
        check_command_in_log g name pm sentAfter) ∧
    (∀ data e, fetch (searchStart sentAfter) = (true, some data, "") →
      data.pendingCommands.find?
          (fun cmd => command_matches cmd name pm sentAfter) = some e →
      check_command_in_log fetch name pm sentAfter =
        { found := true, status := .pending, response_status := none,
          correlation_id := e.correlationId, error := "" }) ∧
    (∀ data, fetch (searchStart sentAfter) = (true, some data, "") →
      data.pendingCommands.find?
          (fun cmd => command_matches cmd name pm sentAfter) = none →
      data.sentCommands.find?
          (fun cmd => command_matches cmd name pm sentAfter) = none →
      (check_command_in_log fetch name pm sentAfter).status = .not_found ∧
      (check_command_in_log fetch name pm sentAfter).found = false) := by
  refine ⟨?_, ?_, ?_⟩
  · intro g hg
    unfold check_command_in_log
    rw [show searchStart sentAfter = sentAfter - 3600000 from rfl, hg]
  · intro data e hf hp
    unfold check_command_in_log
    rw [hf]
    simp [hp]
  · intro data hf hp hs
    unfold check_command_in_log
    rw [hf]
    simp [hp, hs]

/-- Witness for C6: a log whose pending and sent lists both contain a
matching entry still reports `pending`, and an empty log reports
`not_found`. -/
theorem check_command_in_log_scan_order_witness :
    ((fun _ => (true, some (⟨[⟨some "maintenance", some 1000, .pstr "garbage" none,
          none, some "pend"⟩], [⟨some "maintenance", some 1001, .pstr "garbage" none,
          some "200", some "sent"⟩]⟩ : LogData), "")) (searchStart 900)
      = (true, some (⟨[⟨some "maintenance", some 1000, .pstr "garbage" none,
          none, some "pend"⟩], [⟨some "maintenance", some 1001, .pstr "garbage" none,
          some "200", some "sent"⟩]⟩ : LogData), "")) ∧
    check_command_in_log
        (fun _ => (true, some (⟨[⟨some "maintenance", some 1000, .pstr "garbage" none,
          none, some "pend"⟩], [⟨some "maintenance", some 1001, .pstr "garbage" none,
          some "200", some "sent"⟩]⟩ : LogData), ""))
        "maintenance" [] 900
      = { found := true, status := .pending, response_status := none,
          correlation_id := some "pend", error := "" } ∧
    (check_command_in_log (fun _ => (true, some (⟨[], []⟩ : LogData), ""))
        "maintenance" [] 900).status = .not_found ∧
    (check_command_in_log (fun _ => (true, some (⟨[], []⟩ : LogData), ""))
        "maintenance" [] 900).found = false := by
  refine ⟨rfl, ?_, ?_⟩
  · exact (check_command_in_log_scan_order
      (fun _ => (true, some (⟨[⟨some "maintenance", some 1000, .pstr "garbage" none,
        none, some "pend"⟩], [⟨some "maintenance", some 1001, .pstr "garbage" none,
        some "200", some "sent"⟩]⟩ : LogData), ""))
      "maintenance" [] 900).2.1
      ⟨[⟨some "maintenance", some 1000, .pstr "garbage" none, none, some "pend"⟩],
       [⟨some "maintenance", some 1001, .pstr "garbage" none, some "200", some "sent"⟩]⟩
      ⟨some "maintenance", some 1000, .pstr "garbage" none, none, some "pend"⟩
      rfl (by decide)
  · exact (check_command_in_log_scan_order
      (fun _ => (true, some (⟨[], []⟩ : LogData), "")) "maintenance" [] 900).2.2
      ⟨[], []⟩ rfl rfl rfl

/-! ## Claims about the verification engine (C4, C5, C10) -/

/-- Claim C4: on a successful telemetry read, `all_ok` holds exactly when the
alarm value is present and false, both inclination averages are present with
absolute value at most the tolerance (inclusive), and the maximum of the
available data timestamps exists and is strictly greater than the reset
timestamp — a missing field fails its check, never passes.  In particular
alarm=false, incX=0.05, incY=-0.15, tolerance=0.20 (the default) and data
timestamps past the reset timestamp give `all_ok = true`. -/
theorem verify_inclinometer_reset_all_ok :
    (∀ (d : DeviceData) (ts : Int) (tol : ℚ),
      ((verify_inclinometer_reset ⟨true, some d, ""⟩ ts tol).all_ok = true ↔
        (d.almIncl.value = some false ∧
         (∃ x, d.incX.avg = some x ∧ |x| ≤ tol) ∧
         (∃ y, d.incY.avg = some y ∧ |y| ≤ tol) ∧
         (∃ m, pyMax? ([d.almIncl.timestamp, d.incX.timestamp,
              d.incY.timestamp].filterMap id) = some m ∧ ts < m)))) ∧
    (verify_inclinometer_reset
        ⟨true, some ⟨⟨some false, some 2000⟩, ⟨some (Rat.mk' 1 20 (by decide) (by decide)), some 2000⟩,
          ⟨some (Rat.mk' (-3) 20 (by decide) (by decide)), some 2000⟩⟩, ""⟩ 1000
        (Rat.mk' 1 5 (by decide) (by decide))).all_ok = true := by
  constructor
  · intro d ts tol
    rcases d with ⟨⟨av, ats⟩, ⟨xv, xts⟩, ⟨yv, yts⟩⟩
    simp only [verify_inclinometer_reset]
    cases hM : pyMax? ([ats, xts, yts].filterMap id) <;>
      rcases av with _ | b <;> rcases xv with _ | x <;> rcases yv with _ | y <;>
        simp_all [Bool.and_eq_true, decide_eq_true_eq, emptyVerifyApiResult, and_assoc]
  · decide

/-- Claim C5: when the telemetry read succeeds but verification fails, the
failure status is assigned by fixed precedence: alarm active, then timestamp
invalid, then inclination X, then inclination Y, then the generic partial
status; and the record reports `all_ok = false`. -/
theorem verify_single_device_failure_precedence
    (did : String) (ts : Int) (tipo : String) (vd : VerifyApiResult)
    (r : VerifyResult) (h : verify_single_device did ts tipo vd = .ok r)
    (herr : vd.error = "") (hfail : vd.all_ok = false) :
    (vd.alarm_ok = false → r.status = .alarm_active) ∧
    (vd.alarm_ok = true → vd.timestamp_valid = false →
        r.status = .timestamp_invalid) ∧
    (vd.alarm_ok = true → vd.timestamp_valid = true → vd.inc_x_ok = false →
        r.status = .inc_x_out_of_range) ∧
    (vd.alarm_ok = true → vd.timestamp_valid = true → vd.inc_x_ok = true →
        vd.inc_y_ok = false → r.status = .inc_y_out_of_range) ∧
    (vd.alarm_ok = true → vd.timestamp_valid = true → vd.inc_x_ok = true →
        vd.inc_y_ok = true → r.status = .incomplete) ∧
    r.all_ok = false := by
  unfold verify_single_device at h
  rw [herr] at h
  simp only [ne_eq, not_true_eq_false, if_false, hfail, if_neg Bool.false_ne_true] at h
  rcases hB : buildIssues vd.alarm_ok vd.inc_x_ok vd.inc_y_ok vd.timestamp_valid
      vd.inc_x_avg vd.inc_y_avg with e | issues <;> rw [hB] at h
  · cases h
  · rw [Except.ok.injEq] at h
    subst h
    refine ⟨?_, ?_, ?_, ?_, ?_, rfl⟩ <;>
      · intros
        simp_all [failureStatus]

/-- the worked example for C5: a successful telemetry read with the alarm
active (`alarm=true`, so `alarm_ok` fails) and every other check passing
(`incX=0.05`, `incY=-0.15`, tolerance `0.20`, data timestamps past the reset
timestamp). -/
def c5vd : VerifyApiResult :=
  verify_inclinometer_reset
    ⟨true, some ⟨⟨some true, some 2000⟩,
      ⟨some (Rat.mk' 1 20 (by decide) (by decide)), some 2000⟩,
      ⟨some (Rat.mk' (-3) 20 (by decide) (by decide)), some 2000⟩⟩, ""⟩
    1000 (Rat.mk' 1 5 (by decide) (by decide))

def c5r : VerifyResult :=
  (verify_single_device "dev5" 1000 "unknown" c5vd).toOption.getD default

/-- Witness for C5 at the spec's example: alarm active (`alarm=true`) with
every other check passing yields status `ALARM_ACTIVE`. -/
theorem verify_single_device_failure_precedence_witness :
    verify_single_device "dev5" 1000 "unknown" c5vd = .ok c5r ∧
    c5vd.error = "" ∧ c5vd.all_ok = false ∧ c5vd.alarm_ok = false ∧
    c5r.status = .alarm_active := by
  refine ⟨rfl, by decide, by decide, by decide, ?_⟩
  exact (verify_single_device_failure_precedence "dev5" 1000 "unknown" c5vd c5r
    rfl (by decide) (by decide)).1 (by decide)

/-- the telemetry shape on which the failure-message construction raises: a
successful read whose inclination-X measure is absent. -/
def c10Data : DeviceData := ⟨⟨some false, some 2000⟩, ⟨none, none⟩, ⟨some (Rat.mk' 1 10 (by decide) (by decide)), some 2000⟩⟩

/-- Claim C10 (code bug): the classification in `_verify_single_device` is
not total.  On a successful telemetry read with the inclination-X average
absent (an anticipated shape: the checks treat it as failing), building the
failure message formats `None` with `:.3f` and raises `TypeError` instead of
returning a classified record. -/
theorem verify_single_device_raises_on_missing_avg :
    verify_single_device "dev10" 1000 "unknown"
        (verify_inclinometer_reset ⟨true, some c10Data, ""⟩ 1000 (Rat.mk' 1 5 (by decide) (by decide)))
      = .error pyNoneFormatError ∧
    (verify_inclinometer_reset ⟨true, some c10Data, ""⟩ 1000 (Rat.mk' 1 5 (by decide) (by decide))).error = "" ∧
    (verify_inclinometer_reset ⟨true, some c10Data, ""⟩ 1000 (Rat.mk' 1 5 (by decide) (by decide))).api_success = true :=
  ⟨rfl, rfl, rfl⟩

/-! ## Trace bookkeeping for the worker claims (C1, C2, C9)

`pendingFold` replays the flag updates of a run's event history: every
maintenance-ON acceptance (or pre-check hit) sets it, every confirmed
maintenance-OFF clears it.  `lastAccepted` is the timestamp of the most
recent accepted reset send. -/

def pendingFold (tr : List WEvent) : Bool :=
  tr.foldl (fun b e =>
    match e with
    | .pendingOn => true
    | .offConfirmed => false
    | _ => b) false

def lastAccepted (tr : List WEvent) : Option Int :=
  tr.foldl (fun a e =>
    match e with
    | .resetAccepted ts => some ts
    | _ => a) none

theorem pendingFold_append_one (tr : List WEvent) (e : WEvent) :
    pendingFold (tr ++ [e]) =
      match e with
      | .pendingOn => true
      | .offConfirmed => false
      | _ => pendingFold tr := by
  cases e <;> simp [pendingFold, List.foldl_append]

theorem lastAccepted_append_one (tr : List WEvent) (e : WEvent) :
    lastAccepted (tr ++ [e]) =
      match e with
      | .resetAccepted ts => some ts
      | _ => lastAccepted tr := by
  cases e <;> simp [lastAccepted, List.foldl_append]

theorem lastAccepted_eq_none_iff (tr : List WEvent) :
    lastAccepted tr = none ↔ ∀ ts, WEvent.resetAccepted ts ∉ tr := by
  induction tr using List.reverseRecOn with
  | nil => simp [lastAccepted]
  | append_singleton l e ih =>
    rw [lastAccepted_append_one]
    cases e with
    | resetAccepted ts =>
      refine iff_of_false (by simp) ?_
      intro hall
      exact hall ts (by simp)
    | pendingOn => rw [ih]; simp
    | resetConfirmed => rw [ih]; simp
    | offConfirmed => rw [ih]; simp

/-- decomposing a one-longer list around a distinguished element: either the
new last element is it, or the decomposition already lives in the prefix. -/
theorem append_one_decomp {α : Type} {l t₁ t₂ : List α} {x e : α}
    (h : l ++ [e] = t₁ ++ x :: t₂) :
    (t₂ = [] ∧ x = e ∧ t₁ = l) ∨
    (∃ t₂', t₂ = t₂' ++ [e] ∧ l = t₁ ++ x :: t₂') := by
  rcases t₂.eq_nil_or_concat with rfl | ⟨t₂', y, rfl⟩
  · left
    have := List.append_inj' h (by simp)
    exact ⟨rfl, by simpa using this.2.symm, this.1.symm⟩
  · right
    simp only [List.concat_eq_append] at h ⊢
    rw [show t₁ ++ x :: (t₂' ++ [y]) = (t₁ ++ x :: t₂') ++ [y] by simp] at h
    have := List.append_inj' h (by simp)
    refine ⟨t₂', ?_, this.1⟩
    have hey : e = y := by simpa using this.2
    rw [hey]

theorem exists_on_decomp_append {l : List WEvent} {e : WEvent}
    (hon : e ≠ .pendingOn) (hoff : e ≠ .offConfirmed) :
    (∃ t₁ t₂, l ++ [e] = t₁ ++ WEvent.pendingOn :: t₂ ∧ WEvent.offConfirmed ∉ t₂) ↔
    (∃ t₁ t₂, l = t₁ ++ WEvent.pendingOn :: t₂ ∧ WEvent.offConfirmed ∉ t₂) := by
  constructor
  · rintro ⟨t₁, t₂, heq, hni⟩
    rcases append_one_decomp heq with ⟨rfl, rfl, rfl⟩ | ⟨t₂', rfl, rfl⟩
    · exact absurd rfl hon
    · exact ⟨t₁, t₂', rfl, fun hm => hni (by simp [hm])⟩
  · rintro ⟨t₁, t₂, rfl, hni⟩
    refine ⟨t₁, t₂ ++ [e], by simp, ?_⟩
    intro hm
    rcases List.mem_append.mp hm with hm | hm
    · exact hni hm
    · exact hoff (List.mem_singleton.mp hm).symm

/-- the flag replay is `true` exactly when some maintenance-ON event has no
confirmed maintenance-OFF after it. -/
theorem pendingFold_iff (tr : List WEvent) :
    pendingFold tr = true ↔
      ∃ t₁ t₂, tr = t₁ ++ WEvent.pendingOn :: t₂ ∧ WEvent.offConfirmed ∉ t₂ := by
  induction tr using List.reverseRecOn with
  | nil =>
    simp only [pendingFold, List.foldl_nil, Bool.false_eq_true, false_iff]
    rintro ⟨t₁, t₂, heq, -⟩
    exact List.append_ne_nil_of_right_ne_nil t₁ (List.cons_ne_nil _ _) heq.symm
  | append_singleton l e ih =>
    rw [pendingFold_append_one]
    cases e with
    | pendingOn =>
      simp only [true_iff]
      exact ⟨l, [], rfl, by simp⟩
    | offConfirmed =>
      simp only [Bool.false_eq_true, false_iff]
      rintro ⟨t₁, t₂, heq, hni⟩
      rcases append_one_decomp heq with ⟨rfl, hx, rfl⟩ | ⟨t₂', rfl, rfl⟩
      · cases hx
      · exact hni (by simp)
    | resetAccepted ts =>
      rw [ih]
      exact (exists_on_decomp_append (by simp) (by simp)).symm
    | resetConfirmed =>
      rw [ih]
      exact (exists_on_decomp_append (by simp) (by simp)).symm

/-- every step of the worker keeps the pending flag equal to the replay of
its event history: the only transitions touching the flag are the pre-check
hit and accepted maintenance-ON send (both emit `pendingOn`) and the
confirmed maintenance-OFF (which emits `offConfirmed`). -/
theorem step_pending_inl (env : WEnv) (c c' : WConfig)
    (h : step env c = some (.inl c'))
    (hI : c.st.has_maintenance_on_pending = pendingFold c.tr) :
    c'.st.has_maintenance_on_pending = pendingFold c'.tr := by
  obtain ⟨pc, st, rs, t, tr⟩ := c
  cases pc <;>
    simp only [step] at h <;>
    (repeat' split at h) <;>
    (try simp only [Option.some.injEq, Sum.inl.injEq] at h) <;>
    (try subst h) <;>
    simp_all [pendingFold_append_one]

theorem step_pending_inr (env : WEnv) (c : WConfig) (r : ResetResult)
    (h : step env c = some (.inr r))
    (hI : c.st.has_maintenance_on_pending = pendingFold c.tr) :
    r.has_maintenance_on_pending = pendingFold c.tr := by
  obtain ⟨pc, st, rs, t, tr⟩ := c
  cases pc <;>
    simp only [step] at h <;>
    (repeat' split at h) <;>
    (try simp only [Option.some.injEq, Sum.inr.injEq] at h) <;>
    (try subst h) <;>
    simp_all [interruptedResult]

theorem stepRun_pending (env : WEnv) :
    ∀ (fuel : Nat) (c : WConfig) (out : ResetResult × WConfig),
      stepRun env fuel c = some out →
      c.st.has_maintenance_on_pending = pendingFold c.tr →
      out.1.has_maintenance_on_pending = pendingFold out.2.tr := by
  intro fuel
  induction fuel with
  | zero => intro c out h _; simp [stepRun] at h
  | succ n ih =>
    intro c out h hI
    rw [stepRun] at h
    cases hs : step env c with
    | none => rw [hs] at h; cases h
    | some x =>
      rw [hs] at h
      cases x with
      | inr r =>
        simp only [Option.some.injEq] at h
        subst h
        exact step_pending_inr env c r hs hI
      | inl c' =>
        exact ih c' out h (step_pending_inl env c c' hs hI)

/-- Claim C2: at every point of a worker's execution — the theorem quantifies
over any starting configuration whose flag agrees with its event history,
which the initial configuration does vacuously — the final record has
`has_maintenance_on_pending = true` exactly when some maintenance-ON
acceptance (an accepted maintenance-ON send, or a pre-check that found
maintenance already ON) has no confirmed maintenance-OFF after it.  The flag
is set at send acceptance, before any log confirmation, and cleared only by a
maintenance-OFF confirmed `sent_ok` followed by a configuration read showing
`maintenanceMode == "OFF"` (the only transitions emitting these events). -/
theorem worker_pending_flag_iff (env : WEnv) (fuel : Nat) (c : WConfig)
    (out : ResetResult × WConfig)
    (hI : c.st.has_maintenance_on_pending = pendingFold c.tr)
    (h : stepRun env fuel c = some out) :
    (out.1.has_maintenance_on_pending = true ↔
      ∃ t₁ t₂, out.2.tr = t₁ ++ WEvent.pendingOn :: t₂ ∧
        WEvent.offConfirmed ∉ t₂) := by
  rw [stepRun_pending env fuel c out h hI]
  exact pendingFold_iff _

/-- a complete successful run used as the C2 witness: pre-check OFF, one
accepted and confirmed send per phase, no interruption. -/
def envC2 : WEnv :=
  { responses := [
      .maintStatus true (some "OFF") "",
      .send true "" 500,
      .checkLog "" .sent_ok (some "200"),
      .maintStatus true (some "ON") "",
      .send true "" 1000,
      .checkLog "" .sent_ok (some "200.0"),
      .send true "" 2000,
      .checkLog "" .sent_ok (some "204"),
      .maintStatus true (some "OFF") ""]
    stopAt := none }

def c2out : ResetResult × WConfig :=
  (process_single_device envC2 40 "1121525_0103").getD default

/-- Witness for C2: the successful run ends with the flag cleared, and
indeed its history has a confirmed maintenance-OFF after the (only)
maintenance-ON acceptance. -/
theorem worker_pending_flag_iff_witness :
    (initConfig envC2 "1121525_0103").st.has_maintenance_on_pending
        = pendingFold (initConfig envC2 "1121525_0103").tr ∧
    stepRun envC2 40 (initConfig envC2 "1121525_0103") = some c2out ∧
    (c2out.1.has_maintenance_on_pending = true ↔
      ∃ t₁ t₂, c2out.2.tr = t₁ ++ WEvent.pendingOn :: t₂ ∧
        WEvent.offConfirmed ∉ t₂) :=
  ⟨rfl, rfl, worker_pending_flag_iff envC2 40 (initConfig envC2 "1121525_0103")
    c2out rfl rfl⟩

/-! ## Claim C1: when `reset_timestamp` is set -/

/-- program counters of the maintenance-OFF phase and beyond: reachable only
after the reset phase confirmed `sent_ok`. -/
def pcInPhase3 : Pc → Bool
  | .p3Head | .p3RetrySleep => true
  | .p3WaitSleep _ | .p3Check _ | .p3PendSleep _ | .p3Config _ => true
  | .afterP3 => true
  | _ => false

/-- the invariant settling C1: `reset_timestamp` always equals the timestamp
of the most recent accepted reset send, and the maintenance-OFF phase (or a
non-interrupted arrival at the post-reset stop check) is reached only with
the reset confirmed in the log. -/
def resetInv (env : WEnv) (c : WConfig) : Prop :=
  c.st.reset_timestamp = lastAccepted c.tr ∧
  (pcInPhase3 c.pc = true →
      c.st.reset_inclinometro = "OK" ∧ WEvent.resetConfirmed ∈ c.tr) ∧
  (c.pc = .afterP2 → isStopped env c.t = false →
      c.st.reset_inclinometro = "OK" ∧ WEvent.resetConfirmed ∈ c.tr)

theorem step_reset_inv_inl (env : WEnv) (c c' : WConfig)
    (h : step env c = some (.inl c')) (hI : resetInv env c) : resetInv env c' := by
  obtain ⟨h1, h2, h3⟩ := hI
  obtain ⟨pc, st, rs, t, tr⟩ := c
  simp only at h1 h2 h3
  cases pc <;>
    simp only [step] at h <;>
    (repeat' split at h) <;>
    (try simp only [Option.some.injEq, Sum.inl.injEq] at h) <;>
    (try subst h) <;>
    simp_all [resetInv, pcInPhase3, lastAccepted_append_one]

theorem step_reset_inv_inr (env : WEnv) (c : WConfig) (r : ResetResult)
    (h : step env c = some (.inr r)) (hI : resetInv env c) :
    r.reset_timestamp = lastAccepted c.tr ∧
    (r.status = .ok → r.reset_inclinometro = "OK" ∧ WEvent.resetConfirmed ∈ c.tr) := by
  obtain ⟨h1, h2, h3⟩ := hI
  obtain ⟨pc, st, rs, t, tr⟩ := c
  simp only at h1 h2 h3
  cases pc <;>
    simp only [step] at h <;>
    (repeat' split at h) <;>
    (try simp only [Option.some.injEq, Sum.inr.injEq] at h) <;>
    (try subst h) <;>
    simp_all [interruptedResult, pcInPhase3]

theorem stepRun_reset (env : WEnv) :
    ∀ (fuel : Nat) (c : WConfig) (out : ResetResult × WConfig),
      stepRun env fuel c = some out → resetInv env c →
      out.1.reset_timestamp = lastAccepted out.2.tr ∧
      (out.1.status = .ok →
        out.1.reset_inclinometro = "OK" ∧ WEvent.resetConfirmed ∈ out.2.tr) := by
  intro fuel
  induction fuel with
  | zero => intro c out h _; simp [stepRun] at h
  | succ n ih =>
    intro c out h hI
    rw [stepRun] at h
    cases hs : step env c with
    | none => rw [hs] at h; cases h
    | some x =>
      rw [hs] at h
      cases x with
      | inr r =>
        simp only [Option.some.injEq] at h
        subst h
        exact step_reset_inv_inr env c r hs hI
      | inl c' =>
        exact ih c' out h (step_reset_inv_inl env c c' hs hI)

/-- Claim C1 (amended): `reset_timestamp` is non-null exactly when at least
one reset send was accepted; it is set to the client acceptance time as soon
as the send is accepted — before the log lookup — and always equals the most
recent accepted reset send's timestamp.  For a record that completes with
status OK, the reset was additionally confirmed `sent_ok` in the log. -/
theorem reset_timestamp_last_accepted (env : WEnv) (fuel : Nat) (did : String)
    (out : ResetResult × WConfig)
    (h : process_single_device env fuel did = some out) :
    out.1.reset_timestamp = lastAccepted out.2.tr ∧
    (out.1.reset_timestamp = none ↔ ∀ ts, WEvent.resetAccepted ts ∉ out.2.tr) ∧
    (out.1.status = .ok →
      out.1.reset_inclinometro = "OK" ∧ WEvent.resetConfirmed ∈ out.2.tr) := by
  have hinv : resetInv env (initConfig env did) := by
    refine ⟨rfl, ?_, ?_⟩ <;> intro hpc <;> cases hpc
  have := stepRun_reset env fuel (initConfig env did) out h hinv
  refine ⟨this.1, ?_, this.2⟩
  rw [this.1]
  exact lastAccepted_eq_none_iff _

/-- the C1 witness run: the same successful run shape, with the reset send
accepted at client time 1000 ms. -/
def envC1ok : WEnv :=
  { responses := [
      .maintStatus true (some "OFF") "",
      .send true "" 500,
      .checkLog "" .sent_ok (some "200"),
      .maintStatus true (some "ON") "",
      .send true "" 1000,
      .checkLog "" .sent_ok (some "200"),
      .send true "" 2000,
      .checkLog "" .sent_ok (some "204"),
      .maintStatus true (some "OFF") ""]
    stopAt := none }

def c1out : ResetResult × WConfig :=
  (process_single_device envC1ok 40 "1121621_0436").getD default

/-- Witness for the amended C1 on a completed run. -/
theorem reset_timestamp_last_accepted_witness :
    process_single_device envC1ok 40 "1121621_0436" = some c1out ∧
    (c1out.1.reset_timestamp = lastAccepted c1out.2.tr ∧
      (c1out.1.reset_timestamp = none ↔
        ∀ ts, WEvent.resetAccepted ts ∉ c1out.2.tr) ∧
      (c1out.1.status = .ok →
        c1out.1.reset_inclinometro = "OK" ∧ WEvent.resetConfirmed ∈ c1out.2.tr)) :=
  ⟨rfl, reset_timestamp_last_accepted envC1ok 40 "1121621_0436" c1out rfl⟩

/-- the C1 counterexample run: the reset send is accepted at time 1000 ms and
the stop flag trips during the post-send sleep, before any log lookup of the
reset command. -/
def envC1int : WEnv :=
  { responses := [
      .maintStatus true (some "OFF") "",
      .send true "" 500,
      .checkLog "" .sent_ok (some "200"),
      .maintStatus true (some "ON") "",
      .send true "" 1000]
    stopAt := some 7 }

/-- Claim C1 counterexample, refuting the claim as stated: a run interrupted
between acceptance of the reset send and its log confirmation ends with
status INTERRUPTED, **no** `sent_ok` log confirmation of the reset (the
phase outcome is still "NON ESEGUITO" and no confirmation event exists), and
yet `reset_timestamp = 1000`, not null: the code sets it at send acceptance
(line 423), not at confirmation. -/
theorem reset_timestamp_interrupted_counterexample :
    (process_single_device envC1int 30 "1121621_0436").map
        (fun out => (out.1.status, out.1.reset_timestamp, out.1.reset_inclinometro,
          decide (WEvent.resetConfirmed ∈ out.2.tr)))
      = some (.interrupted, some 1000, "NON ESEGUITO", false) := rfl

/-! ## Claim C9: cancellation during the maintenance-ON log-checking loop -/

/-- the stop flag is monotone: once set it stays set. -/
theorem isStopped_mono (env : WEnv) (t : Nat) (h : isStopped env t = true) :
    isStopped env (t + 1) = true := by
  cases hk : env.stopAt with
  | none => simp [isStopped, hk] at h
  | some k =>
    simp only [isStopped, hk, decide_eq_true_eq] at h ⊢
    omega

theorem stepRun_afterP1_stopped (env : WEnv) (fuel : Nat) (c : WConfig)
    (out : ResetResult × WConfig) (hpc : c.pc = .afterP1)
    (hstop : isStopped env c.t = true) (h : stepRun env fuel c = some out) :
    out = (interruptedResult c.st, c) := by
  have hstep : step env c = some (.inr (interruptedResult c.st)) := by
    simp [step, hpc, hstop]
  cases fuel with
  | zero => simp [stepRun] at h
  | succ n =>
    rw [stepRun, hstep] at h
    simpa using h.symm

theorem stepRun_p1Check_stopped (env : WEnv) (fuel : Nat) (c : WConfig)
    (s : Int) (out : ResetResult × WConfig) (hpc : c.pc = .p1Check s)
    (hstop : isStopped env c.t = true) (h : stepRun env fuel c = some out) :
    out = (interruptedResult c.st, { c with pc := .afterP1 }) := by
  have hstep : step env c = some (.inl { c with pc := .afterP1 }) := by
    simp [step, hpc, hstop]
  cases fuel with
  | zero => simp [stepRun] at h
  | succ n =>
    rw [stepRun, hstep] at h
    have h' : stepRun env n { c with pc := .afterP1 } = some out := h
    exact stepRun_afterP1_stopped env n { c with pc := .afterP1 } out rfl hstop h'

/-- Claim C9: if the shared stop signal is set while a worker is inside the
maintenance-ON log-checking loop (at the loop head, sleeping on a pending
command, or in the post-send wait) with the flag already set by the accepted
maintenance-ON send, the run returns the interruption record — status
INTERRUPTED, `has_maintenance_on_pending` still true — without consuming any
further API response or emitting any further event: it never proceeds to a
later phase after observing the signal. -/
theorem worker_interrupted_in_maint_on_poll (env : WEnv) (fuel : Nat)
    (c : WConfig) (s : Int) (out : ResetResult × WConfig)
    (hpc : c.pc = .p1Check s ∨ c.pc = .p1PendSleep s ∨ c.pc = .p1WaitSleep s)
    (hstop : isStopped env c.t = true)
    (hflag : c.st.has_maintenance_on_pending = true)
    (h : stepRun env fuel c = some out) :
    out.1 = interruptedResult c.st ∧
    out.1.status = .interrupted ∧
    out.1.has_maintenance_on_pending = true ∧
    out.2.rs = c.rs ∧ out.2.tr = c.tr := by
  have key : out.1 = interruptedResult c.st ∧ out.2.rs = c.rs ∧ out.2.tr = c.tr := by
    rcases hpc with hpc | hpc | hpc
    · have := stepRun_p1Check_stopped env fuel c s out hpc hstop h
      rw [this]
      exact ⟨rfl, rfl, rfl⟩
    · -- one sleep step back to the loop head, where the flag check fires
      have hstep : step env c = some (.inl { c with pc := .p1Check s, t := c.t + 1 }) := by
        simp [step, hpc]
      cases fuel with
      | zero => simp [stepRun] at h
      | succ n =>
        rw [stepRun, hstep] at h
        have h' : stepRun env n { c with pc := .p1Check s, t := c.t + 1 } = some out := h
        have := stepRun_p1Check_stopped env n { c with pc := .p1Check s, t := c.t + 1 }
          s out rfl (isStopped_mono env c.t hstop) h'
        rw [this]
        exact ⟨rfl, rfl, rfl⟩
    · -- the post-sleep stop check at line 339 fires
      have hstep : step env c = some (.inl { c with pc := .afterP1, t := c.t + 1 }) := by
        simp [step, hpc, isStopped_mono env c.t hstop]
      cases fuel with
      | zero => simp [stepRun] at h
      | succ n =>
        rw [stepRun, hstep] at h
        have h' : stepRun env n { c with pc := .afterP1, t := c.t + 1 } = some out := h
        have := stepRun_afterP1_stopped env n { c with pc := .afterP1, t := c.t + 1 }
          out rfl (isStopped_mono env c.t hstop) h'
        rw [this]
        exact ⟨rfl, rfl, rfl⟩
  refine ⟨key.1, ?_, ?_, key.2.1, key.2.2⟩
  · rw [key.1]; rfl
  · rw [key.1]
    exact hflag

/-- the C9 witness configuration: a worker at the log-checking loop head
after an accepted maintenance-ON send, with the stop flag set. -/
def envC9 : WEnv := { responses := [], stopAt := some 9 }

def c9Config : WConfig :=
  { pc := .p1Check 500
    st := { newResult "1121621_0436" with
              tipo := "slave"
              status := .maint_on
              current_phase := .maint_on_checking_log
              maint_on_attempts := 1
              has_maintenance_on_pending := true }
    rs := []
    t := 9
    tr := [.pendingOn] }

def c9out : ResetResult × WConfig := (stepRun envC9 5 c9Config).getD default

/-- Witness for C9. -/
theorem worker_interrupted_in_maint_on_poll_witness :
    (c9Config.pc = .p1Check 500 ∨ c9Config.pc = .p1PendSleep 500 ∨
      c9Config.pc = .p1WaitSleep 500) ∧
    isStopped envC9 c9Config.t = true ∧
    c9Config.st.has_maintenance_on_pending = true ∧
    stepRun envC9 5 c9Config = some c9out ∧
    (c9out.1 = interruptedResult c9Config.st ∧
      c9out.1.status = .interrupted ∧
      c9out.1.has_maintenance_on_pending = true ∧
      c9out.2.rs = c9Config.rs ∧ c9out.2.tr = c9Config.tr) :=
  ⟨Or.inl rfl, by decide, rfl, rfl,
    worker_interrupted_in_maint_on_poll envC9 5 c9Config 500 c9out
      (Or.inl rfl) (by decide) rfl rfl⟩

/-! ## Claim C8: fleet-level authentication failure -/

theorem insertResult_forall (P : String × ResetResult → Prop)
    (m : List (String × ResetResult)) (k : String) (v : ResetResult)
    (hm : ∀ p ∈ m, P p) (hv : P (k, v)) : ∀ p ∈ insertResult m k v, P p := by
  induction m with
  | nil => simpa [insertResult]
  | cons q rest ih =>
    simp only [insertResult]
    split
    · intro p hp
      rcases List.mem_cons.mp hp with rfl | hp
      · exact hv
      · exact hm p (List.mem_cons_of_mem _ hp)
    · intro p hp
      rcases List.mem_cons.mp hp with rfl | hp
      · exact hm q (List.mem_cons_self _ _)
      · exact ih (fun p hp => hm p (List.mem_cons_of_mem _ hp)) p hp

theorem insertResult_key_self (m : List (String × ResetResult)) (k : String)
    (v : ResetResult) : k ∈ (insertResult m k v).map Prod.fst := by
  induction m with
  | nil => simp [insertResult]
  | cons q rest ih =>
    simp only [insertResult]
    split
    · simp
    · simp only [List.map_cons, List.mem_cons]
      exact Or.inr ih

theorem insertResult_key_mono (m : List (String × ResetResult)) (k : String)
    (v : ResetResult) (k' : String) (h : k' ∈ m.map Prod.fst) :
    k' ∈ (insertResult m k v).map Prod.fst := by
  induction m with
  | nil => simp at h
  | cons q rest ih =>
    simp only [List.map_cons, List.mem_cons] at h
    simp only [insertResult]
    split
    · next heq =>
      simp only [List.map_cons, List.mem_cons]
      rcases h with h | h
      · exact Or.inl (h.trans heq)
      · exact Or.inr h
    · simp only [List.map_cons, List.mem_cons]
      rcases h with h | h
      · exact Or.inl h
      · exact Or.inr (ih h)

theorem foldl_insert_inv (P : String × ResetResult → Prop)
    (f : String → ResetResult) (hf : ∀ d, P (d, f d)) :
    ∀ (dids : List String) (acc : List (String × ResetResult)),
      (∀ p ∈ acc, P p) →
      (∀ p ∈ dids.foldl (fun a d => insertResult a d (f d)) acc, P p) ∧
      (∀ d, d ∈ dids ∨ d ∈ acc.map Prod.fst →
        d ∈ (dids.foldl (fun a d => insertResult a d (f d)) acc).map Prod.fst) := by
  intro dids
  induction dids with
  | nil =>
    intro acc hacc
    refine ⟨hacc, ?_⟩
    intro d hd
    rcases hd with hd | hd
    · simp at hd
    · simpa using hd
  | cons d0 ds ih =>
    intro acc hacc
    simp only [List.foldl_cons]
    have hrec := ih (insertResult acc d0 (f d0))
      (insertResult_forall P acc d0 (f d0) hacc (hf d0))
    refine ⟨hrec.1, ?_⟩
    intro d hd
    apply hrec.2
    rcases hd with hd | hd
    · rcases List.mem_cons.mp hd with rfl | hd
      · exact Or.inr (insertResult_key_self acc d (f d))
      · exact Or.inl hd
    · exact Or.inr (insertResult_key_mono acc d0 (f d0) d hd)

/-- Claim C8: when fleet-level authentication validation fails at the start
of `ResetWorker.run`, every device of the list receives a terminal record
with status ERROR and the auth error message, all per-phase attempt counters
(and the reset timestamp) at their zero defaults, and no per-device network
call is issued (`apiCalls = 0`: the auth-failure branch consumes no oracle
response of any device). -/
theorem runFleet_auth_failure (auth : AuthResult) (devEnv : String → WEnv)
    (fuel : Nat) (dids : List String) (out : FleetOutcome)
    (hauth : auth.success = false) (h : runFleet auth devEnv fuel dids = some out) :
    out.apiCalls = 0 ∧
    (∀ r ∈ out.results, r.status = .error ∧
      r.error_message = "Auth error: " ++ auth.msg ∧
      r.maint_on_attempts = 0 ∧ r.reset_attempts = 0 ∧
      r.maint_off_attempts = 0 ∧ r.reset_timestamp = none) ∧
    (∀ did ∈ dids, ∃ r ∈ out.results, r.deviceid = did) := by
  unfold runFleet at h
  rw [hauth] at h
  split at h
  case isFalse h2 => exact absurd rfl h2
  case isTrue =>
    simp only [Option.some.injEq] at h
    subst h
    have hbase := foldl_insert_inv
      (fun p => p.2.deviceid = p.1 ∧ p.2.status = .error ∧
        p.2.error_message = "Auth error: " ++ auth.msg ∧
        p.2.maint_on_attempts = 0 ∧ p.2.reset_attempts = 0 ∧
        p.2.maint_off_attempts = 0 ∧ p.2.reset_timestamp = none)
      (fun did => { newResult did with
                      tipo := detect_device_type did
                      status := .error
                      error_message := "Auth error: " ++ auth.msg })
      (fun d => ⟨rfl, rfl, rfl, rfl, rfl, rfl, rfl⟩)
      dids []
      (by intro p hp; simp at hp)
    refine ⟨rfl, ?_, ?_⟩
    · intro r hr
      rcases List.mem_map.mp hr with ⟨p, hp, rfl⟩
      exact (hbase.1 p hp).2
    · intro did hdid
      have hk := hbase.2 did (Or.inl hdid)
      rcases List.mem_map.mp hk with ⟨p, hp, rfl⟩
      exact ⟨p.2, List.mem_map_of_mem _ hp, (hbase.1 p hp).1⟩

def c8auth : AuthResult := ⟨false, "CLIENT_ID non configurato nel file .env"⟩

def c8out : FleetOutcome :=
  (runFleet c8auth (fun _ => ⟨[], none⟩) 5
    ["1121525_0103", "1121621_0436", "1121622_0364"]).getD default

/-- Witness for C8: three devices, failed auth validation. -/
theorem runFleet_auth_failure_witness :
    c8auth.success = false ∧
    runFleet c8auth (fun _ => ⟨[], none⟩) 5
        ["1121525_0103", "1121621_0436", "1121622_0364"] = some c8out ∧
    (c8out.apiCalls = 0 ∧
      (∀ r ∈ c8out.results, r.status = .error ∧
        r.error_message = "Auth error: " ++ c8auth.msg ∧
        r.maint_on_attempts = 0 ∧ r.reset_attempts = 0 ∧
        r.maint_off_attempts = 0 ∧ r.reset_timestamp = none) ∧
      (∀ did ∈ ["1121525_0103", "1121621_0436", "1121622_0364"],
        ∃ r ∈ c8out.results, r.deviceid = did)) :=
  ⟨rfl, rfl, runFleet_auth_failure c8auth (fun _ => ⟨[], none⟩) 5
    ["1121525_0103", "1121621_0436", "1121622_0364"] c8out rfl rfl⟩

end DIGIL
